import Mathlib

/-!
Verification development for the Milvus RAG ingestion API.

Shallow embedding of the pure/algorithmic parts of the repository:
`app/rag.py` (detail-level classifier, prompt builder, retriever
normalization), `app/embeddings.py` (embedding client), `app/main.py`
(chat orchestrator timeout staging), `app/milvus_client.py` (collection
lifecycle) and `app/security_memory/store.py` (tag-filtered search).

Machine integers do not occur on the verified paths; Python strings are
modelled as Lean `String` (sequences of code points, matching `len` and
slicing by character).  The modelled case conversion and word classes are
ASCII, which agrees with CPython on every input considered here.
-/

namespace RagSpec

/-! ### Python string primitives -/

/-- Whitespace as recognized by Python `str.strip` (ASCII part). -/
def isPyWs (c : Char) : Bool :=
  c = ' ' || c = '\t' || c = '\n' || c = '\r' || c = '\x0b' || c = '\x0c'

/-- Python `str.strip()`: drop whitespace from both ends. -/
def pyStrip (s : String) : String :=
  String.mk (((s.toList.dropWhile isPyWs).reverse.dropWhile isPyWs).reverse)

/-- Python `sub in s` on char lists: `pat` occurs contiguously in `hay`. -/
def hasSub (pat : List Char) : List Char → Bool
  | [] => pat.isPrefixOf []
  | c :: t => pat.isPrefixOf (c :: t) || hasSub pat t

/-- Python `pat in hay` for strings. -/
def containsStr (hay pat : String) : Bool :=
  hasSub pat.toList hay.toList

/-- Python `s[:n]`: the first `n` characters. -/
def pySlice (s : String) (n : Nat) : String :=
  String.mk (s.toList.take n)

/-- Python `s.lower()` (ASCII case mapping). -/
def pyLower (s : String) : String :=
  String.mk (s.toList.map Char.toLower)

/-! ### Word-boundary regex model

`re.search(r"\b(w1|w2|...)\b", s)` succeeds iff some alternative occurs in
`s` with a `\b` boundary on each side.  `\b` holds at a position iff
exactly one of the two adjacent characters (start/end of string counting
as non-word) is a word character `[A-Za-z0-9_]`. -/

def isWordChar (c : Char) : Bool :=
  c.isAlphanum || c = '_'

/-- Word-character test of an optional adjacent character (none = edge). -/
def wordCharOpt : Option Char → Bool
  | none => false
  | some c => isWordChar c

/-- One alternative `w` matches at the head of `hay`, with the character
just before the match being `prev`. -/
def altMatchAt (prev : Option Char) (hay w : List Char) : Bool :=
  w.isPrefixOf hay
    && (wordCharOpt prev != wordCharOpt w.head?)
    && (wordCharOpt w.getLast? != wordCharOpt (hay.drop w.length).head?)

/-- Scan `hay` for a boundary-delimited occurrence of `w`. -/
def reWordSearch (w : List Char) : Option Char → List Char → Bool
  | prev, [] => altMatchAt prev [] w
  | prev, c :: rest => altMatchAt prev (c :: rest) w || reWordSearch w (some c) rest

/-- `re.search(r"\b(...alternatives...)\b", hay)` as a Bool. -/
def hasWordAny (hay : String) (ws : List String) : Bool :=
  ws.any fun w => reWordSearch w.toList none hay.toList

/-! ### Detail-level classifier (`app/rag.py`, `classify_detail_level`) -/

inductive DetailLevel where
  | basic
  | standard
  | advanced
deriving DecidableEq, Repr

/-- The string value of the Python `Literal["basic","standard","advanced"]`. -/
def DetailLevel.render : DetailLevel → String
  | .basic => "basic"
  | .standard => "standard"
  | .advanced => "advanced"

def cliWords : List String :=
  ["docker", "kubectl", "curl", "pip", "conda", "apt-get", "brew"]

def logWords : List String :=
  ["traceback", "exception", "stack trace", "error:", "warn["]

def protoWords : List String :=
  ["http", "https", "grpc", "tcp", "udp", "oauth", "jwt"]

def acronymWords : List String :=
  ["RAG", "LLM", "API", "SDK", "TLS", "SSL", "CVE", "XSS", "CSRF", "SQLi", "RBAC", "IAM"]

/-- Python: three backquote characters occur in `m`. -/
def hasCodeBlock (m : String) : Bool := containsStr m "```"

def hasCli (lower : String) : Bool := hasWordAny lower cliWords

def hasLogs (lower : String) : Bool := hasWordAny lower logWords

def hasProtocols (lower : String) : Bool := hasWordAny lower protoWords

/-- Case-sensitive acronym search on the un-lowered text. -/
def hasAcronyms (m : String) : Bool := hasWordAny m acronymWords

/-- Structural signal: long text, two question marks, or three newlines. -/
def longOrMulti (m : String) : Bool :=
  decide (180 < m.length) || decide (2 ≤ m.toList.count '?') || decide (3 ≤ m.toList.count '\n')

/-- The summed signal score of `classify_detail_level` (on the stripped text). -/
def advancedScore (m : String) : Nat :=
  [ if hasCodeBlock m then 2 else 0,
    if hasCli (pyLower m) then 2 else 0,
    if hasLogs (pyLower m) then 2 else 0,
    if hasProtocols (pyLower m) then 1 else 0,
    if hasAcronyms m then 1 else 0,
    if longOrMulti m then 1 else 0 ].sum

/-- The five non-structural signals guarding the `basic` branch. -/
def contentSignal (m : String) : Bool :=
  hasCli (pyLower m) || hasLogs (pyLower m) || hasProtocols (pyLower m)
    || hasAcronyms m || hasCodeBlock m

/-- `classify_detail_level` from `app/rag.py` lines 42-68. -/
def classify_detail_level (message : String) : DetailLevel :=
  if pyStrip message = "" then .basic
  else if 3 ≤ advancedScore (pyStrip message) then .advanced
  else if (pyStrip message).length ≤ 60 ∧ contentSignal (pyStrip message) = false then .basic
  else .standard

/-- Modelled from the spec: the decision rule as claim C5 words it, where
the `basic` branch additionally requires that the structural signal did
not fire.  Used only to compare with `classify_detail_level`. -/
def specClassify (message : String) : DetailLevel :=
  if 3 ≤ advancedScore (pyStrip message) then .advanced
  else if pyStrip message = ""
      ∨ ((pyStrip message).length ≤ 60 ∧ contentSignal (pyStrip message) = false
          ∧ longOrMulti (pyStrip message) = false) then .basic
  else .standard

/-- The decision rule with the `basic` branch excluding only the five
content signals, exactly as the code has it. -/
def amendedSpecClassify (message : String) : DetailLevel :=
  if 3 ≤ advancedScore (pyStrip message) then .advanced
  else if pyStrip message = ""
      ∨ ((pyStrip message).length ≤ 60 ∧ contentSignal (pyStrip message) = false) then .basic
  else .standard

/-! ### Chat request detail level (`app/schemas.py` ChatIn, `app/rag.py` build_prompt) -/

/-- Presence/absence of a field in the posted JSON body. -/
inductive FieldInput (α : Type) where
  | omitted
  | provided (v : α)

/-- Pydantic parsing of `ChatIn.detail_level`: the field declares
`Optional[Literal[...]] = "standard"`, so an omitted field becomes
`"standard"` and only an explicit `null` becomes `None`. -/
def chatInDetailLevel : FieldInput (Option DetailLevel) → Option DetailLevel
  | .omitted => some .standard
  | .provided v => v

/-- The level actually used by `build_prompt`:
`level = detail_level or classify_detail_level(user_message)`. -/
def chatUsedDetailLevel (message : String) (f : FieldInput (Option DetailLevel)) : DetailLevel :=
  (chatInDetailLevel f).getD (classify_detail_level message)

/-! ## Prompt builder (`app/rag.py` lines 71-93 and 159-186) -/

/-- The fields of a retrieved source dict that `build_prompt` reads. -/
structure PromptSource where
  title : String
  url : String
  snippet : String
deriving DecidableEq, Repr

/-- `_detail_instructions` from `app/rag.py`: three fixed templates. -/
def _detail_instructions : DetailLevel → String
  | .basic =>
      "Write for a beginner.\n- Keep it short (3–8 sentences).\n- Explain jargon in plain language.\n- Prefer bullets.\n- Avoid deep implementation details unless asked.\n"
  | .advanced =>
      "Write for a technical audience.\n- Be precise.\n- Include concrete steps, commands, and edge cases when helpful.\n- Mention security/reliability considerations if relevant.\n- If you make assumptions, state them.\n"
  | .standard =>
      "Write at an intermediate level.\n- Clear explanation with practical guidance.\n- Use bullets and short sections.\n- Include commands only when they add real value.\n"

/-- One numbered context line: Python f-string `[{i}] {title} ({url})\n{snippet}`. -/
def renderSourceLine (i : Nat) (s : PromptSource) : String :=
  "[" ++ toString i ++ "] " ++ s.title ++ " (" ++ s.url ++ ")\n" ++ s.snippet

/-- `enumerate(sources, start=i)` rendered to lines. -/
def renderLines (i : Nat) : List PromptSource → List String
  | [] => []
  | s :: rest => renderSourceLine i s :: renderLines (i + 1) rest

/-- The joined source block, or the literal placeholder when empty. -/
def renderContext (sources : List PromptSource) : String :=
  if sources = [] then "(no sources retrieved)"
  else String.intercalate "\n\n" (renderLines 1 sources)

/-- `build_prompt` from `app/rag.py` lines 159-186, with the level resolved
as `detail_level or classify_detail_level(user_message)`. -/
def build_prompt (user_message : String) (sources : List PromptSource)
    (detail_level : Option DetailLevel) : String :=
  "You are a retrieval-augmented assistant.\nRules:\n1) Use ONLY the provided Sources for factual claims.\n2) If Sources are insufficient, say what is missing and what you would check next.\n3) When you cite a source, cite it inline like [1], [2].\n4) Do not invent URLs, quotes, or document titles.\n\n"
    ++ "Response style:\n"
    ++ _detail_instructions (detail_level.getD (classify_detail_level user_message))
    ++ "\n"
    ++ "Detail level selected: "
    ++ (detail_level.getD (classify_detail_level user_message)).render
    ++ "\n\n"
    ++ "Sources:\n" ++ renderContext sources ++ "\n\n"
    ++ "User question:\n" ++ user_message ++ "\n\n"
    ++ "Answer:\n"

/-- The tier-independent rules preamble of the prompt. -/
def promptHeader : String :=
  "You are a retrieval-augmented assistant.\nRules:\n1) Use ONLY the provided Sources for factual claims.\n2) If Sources are insufficient, say what is missing and what you would check next.\n3) When you cite a source, cite it inline like [1], [2].\n4) Do not invent URLs, quotes, or document titles.\n\n"

/-- The only tier-dependent part of the prompt: the style-instruction
block together with the "Detail level selected" line. -/
def styleBlock (t : DetailLevel) : String :=
  "Response style:\n" ++ _detail_instructions t ++ "\n"
    ++ "Detail level selected: " ++ t.render ++ "\n\n"

/-- The tier-independent tail: rendered sources and verbatim question. -/
def promptSuffix (q : String) (s : List PromptSource) : String :=
  "Sources:\n" ++ renderContext s ++ "\n\n"
    ++ "User question:\n" ++ q ++ "\n\n"
    ++ "Answer:\n"

/-- `RAG_TOP_K` default from `app/rag.py` (env default "4"). -/
def RAG_TOP_K : Nat := 4

/-- `k = k or RAG_TOP_K` from `retrieve_sources`: Python `or` replaces the
falsy values `None` and `0` by the default. -/
def effectiveK (k : Option Nat) : Nat :=
  match k with
  | none => RAG_TOP_K
  | some n => if n = 0 then RAG_TOP_K else n

/-- Runtime HNSW search breadth: `ef = max(k * 4, 64)`. -/
def searchEf (k : Nat) : Nat := max (k * 4) 64

/-! ## Security-memory tag filter (`app/security_memory/store.py` query_memory)

The filter expression is `" or ".join(f'tags like \'%"{tag}"%\'' ...)`:
one Milvus `LIKE` clause per requested tag, whose pattern is the tag
wrapped in JSON double quotes between two `%` wildcards.  `likeMatch`
gives Milvus `LIKE` semantics, where `%` matches any character sequence
and every other pattern character matches itself. -/

/-- All suffixes of a char list (used to give `%` its any-sequence meaning). -/
def tailsOf : List Char → List (List Char)
  | [] => [[]]
  | c :: t => (c :: t) :: tailsOf t

/-- Milvus `LIKE` pattern matching: `likeMatch pattern s`. -/
def likeMatch : List Char → List Char → Bool
  | [], s => s.isEmpty
  | p :: ps, s =>
      if p = '%' then (tailsOf s).any fun s2 => likeMatch ps s2
      else
        match s with
        | [] => false
        | c :: s2 => p == c && likeMatch ps s2

/-- The tag wrapped in JSON double quotes, as appears in the pattern. -/
def quoteChars (tag : String) : List Char :=
  '"' :: (tag.toList ++ ['"'])

/-- The `LIKE` pattern built by `query_memory`: `%"{tag}"%`. -/
def likePattern (tag : String) : List Char :=
  '%' :: (quoteChars tag ++ ['%'])

/-- Row admission by the search filter: `expr` is only set when
`payload.tags` is truthy (a non-empty list), and is the OR of the per-tag
`LIKE` clauses over the row's `tags` column. -/
def admitsRow (tags : Option (List String)) (tagsCol : String) : Bool :=
  match tags with
  | none => true
  | some [] => true
  | some ts => ts.any fun t => likeMatch (likePattern t) tagsCol.toList

/-- One hex digit as emitted by `json.dumps` (lowercase). -/
def hexDigit (n : Nat) : Char :=
  if n < 10 then Char.ofNat (48 + n) else Char.ofNat (87 + n)

/-- Escaping of one character by `json.dumps` with the default
`ensure_ascii=True` (characters beyond the BMP aside, which do not occur
in the inputs considered here). -/
def jsonEscapeChar (c : Char) : List Char :=
  if c = '"' then ['\\', '"']
  else if c = '\\' then ['\\', '\\']
  else if c = '\x08' then ['\\', 'b']
  else if c = '\x0c' then ['\\', 'f']
  else if c = '\n' then ['\\', 'n']
  else if c = '\r' then ['\\', 'r']
  else if c = '\t' then ['\\', 't']
  else if c.toNat < 32 ∨ 127 < c.toNat then
    ['\\', 'u', hexDigit (c.toNat / 4096 % 16), hexDigit (c.toNat / 256 % 16),
      hexDigit (c.toNat / 16 % 16), hexDigit (c.toNat % 16)]
  else [c]

/-- A JSON string literal as emitted by `json.dumps`. -/
def jsonQuote (s : String) : String :=
  String.mk ('"' :: ((s.toList.map jsonEscapeChar).flatten ++ ['"']))

/-- `json.dumps(list_of_strings)` with default separators; this is what
`insert_doc` stores in the `tags` column. -/
def pyJsonDumpsStrList (l : List String) : String :=
  "[" ++ String.intercalate ", " (l.map jsonQuote) ++ "]"

/-! ## JSON (`json.loads` / hit normalization, `app/rag.py` 132-150 and
`app/security_memory/store.py` 190-209)

A value model and recursive-descent grammar for `json.loads`: strict mode
(unescaped control characters rejected), the default non-standard
constants `NaN`/`Infinity`/`-Infinity` accepted, numbers kept as their
lexeme (no numeric value is ever inspected by the code under study). -/

inductive Json where
  | null
  | bool (b : Bool)
  | num (raw : String)
  | str (s : String)
  | arr (elems : List Json)
  | obj (fields : List (String × Json))

/-- JSON inter-token whitespace. -/
def skipWs : List Char → List Char
  | [] => []
  | c :: t => if c = ' ' ∨ c = '\t' ∨ c = '\n' ∨ c = '\r' then skipWs t else c :: t

def hexVal (c : Char) : Option Nat :=
  if '0' ≤ c ∧ c ≤ '9' then some (c.toNat - 48)
  else if 'a' ≤ c ∧ c ≤ 'f' then some (c.toNat - 87)
  else if 'A' ≤ c ∧ c ≤ 'F' then some (c.toNat - 55)
  else none

/-- String body after the opening quote; `acc` holds parsed characters in
reverse.  Characters from `\uXXXX` escapes are built with `Char.ofNat`
(code points that are not lone surrogates, as in every input here). -/
def parseStrBody : List Char → List Char → Option (String × List Char)
  | _, [] => none
  | acc, c :: t =>
    if c = '"' then some (String.mk acc.reverse, t)
    else if c = '\\' then
      match t with
      | [] => none
      | e :: t2 =>
        if e = '"' then parseStrBody ('"' :: acc) t2
        else if e = '\\' then parseStrBody ('\\' :: acc) t2
        else if e = '/' then parseStrBody ('/' :: acc) t2
        else if e = 'b' then parseStrBody ('\x08' :: acc) t2
        else if e = 'f' then parseStrBody ('\x0c' :: acc) t2
        else if e = 'n' then parseStrBody ('\n' :: acc) t2
        else if e = 'r' then parseStrBody ('\r' :: acc) t2
        else if e = 't' then parseStrBody ('\t' :: acc) t2
        else if e = 'u' then
          match t2 with
          | a :: b :: c2 :: d :: t3 =>
            match hexVal a, hexVal b, hexVal c2, hexVal d with
            | some x, some y, some z, some w =>
                parseStrBody (Char.ofNat (4096 * x + 256 * y + 16 * z + w) :: acc) t3
            | _, _, _, _ => none
          | _ => none
        else none
    else if c.toNat < 32 then none
    else parseStrBody (c :: acc) t

/-- Optional fraction part `.digits`. -/
def parseFrac : List Char → Option (List Char × List Char)
  | '.' :: t =>
      if t.takeWhile Char.isDigit = [] then none
      else some ('.' :: t.takeWhile Char.isDigit, t.drop (t.takeWhile Char.isDigit).length)
  | l => some ([], l)

/-- Optional exponent part `[eE][+-]?digits`. -/
def parseExp : List Char → Option (List Char × List Char)
  | [] => some ([], [])
  | c :: t =>
      if c = 'e' ∨ c = 'E' then
        match t with
        | s :: t1 =>
          if s = '+' ∨ s = '-' then
            if t1.takeWhile Char.isDigit = [] then none
            else some (c :: s :: t1.takeWhile Char.isDigit, t1.drop (t1.takeWhile Char.isDigit).length)
          else
            if t.takeWhile Char.isDigit = [] then none
            else some (c :: t.takeWhile Char.isDigit, t.drop (t.takeWhile Char.isDigit).length)
        | [] => none
      else some ([], c :: t)

/-- Integer part `0 | [1-9]digits` (leading zeros rejected). -/
def parseIntPart : List Char → Option (List Char × List Char)
  | [] => none
  | '0' :: t => some (['0'], t)
  | c :: t =>
      if c.isDigit then some (c :: t.takeWhile Char.isDigit, t.drop (t.takeWhile Char.isDigit).length)
      else none

/-- Number lexeme per the `json` module's regular expression. -/
def parseNumLex (l : List Char) : Option (List Char × List Char) :=
  match l with
  | '-' :: t =>
    (match parseIntPart t with
     | none => none
     | some (ip, l2) =>
       match parseFrac l2 with
       | none => none
       | some (fp, l3) =>
         match parseExp l3 with
         | none => none
         | some (ep, l4) => some ('-' :: (ip ++ fp ++ ep), l4))
  | _ =>
    match parseIntPart l with
    | none => none
    | some (ip, l2) =>
      match parseFrac l2 with
      | none => none
      | some (fp, l3) =>
        match parseExp l3 with
        | none => none
        | some (ep, l4) => some (ip ++ fp ++ ep, l4)

mutual

/-- One JSON value; `fuel` strictly bounds the recursion (two units per
input character suffice, see `pyJsonLoads`). -/
def parseVal : Nat → List Char → Option (Json × List Char)
  | 0, _ => none
  | fuel + 1, l =>
    match skipWs l with
    | [] => none
    | c :: t =>
      if c = 'n' then
        if ['u', 'l', 'l'].isPrefixOf t then some (.null, t.drop 3) else none
      else if c = 't' then
        if ['r', 'u', 'e'].isPrefixOf t then some (.bool true, t.drop 3) else none
      else if c = 'f' then
        if ['a', 'l', 's', 'e'].isPrefixOf t then some (.bool false, t.drop 4) else none
      else if c = '"' then
        match parseStrBody [] t with
        | some (s, rest) => some (.str s, rest)
        | none => none
      else if c = 'N' then
        if ['a', 'N'].isPrefixOf t then some (.num "NaN", t.drop 2) else none
      else if c = 'I' then
        if ['n', 'f', 'i', 'n', 'i', 't', 'y'].isPrefixOf t then some (.num "Infinity", t.drop 7)
        else none
      else if c = '-' ∧ ['I', 'n', 'f', 'i', 'n', 'i', 't', 'y'].isPrefixOf t then
        some (.num "-Infinity", t.drop 8)
      else if c = '[' then
        match skipWs t with
        | d :: t2 => if d = ']' then some (.arr [], t2) else parseElems fuel [] (skipWs t)
        | [] => none
      else if c = '\x7b' then
        match skipWs t with
        | d :: t2 => if d = '\x7d' then some (.obj [], t2) else parseMembers fuel [] (skipWs t)
        | [] => none
      else
        match parseNumLex (c :: t) with
        | some (lex, rest) => some (.num (String.mk lex), rest)
        | none => none

/-- Array elements after `[` (non-empty case); `acc` is reversed. -/
def parseElems : Nat → List Json → List Char → Option (Json × List Char)
  | 0, _, _ => none
  | fuel + 1, acc, l =>
    match parseVal fuel l with
    | none => none
    | some (v, rest) =>
      match skipWs rest with
      | ',' :: t => parseElems fuel (v :: acc) t
      | ']' :: t => some (.arr (v :: acc).reverse, t)
      | _ => none

/-- Object members after the opening brace (non-empty case). -/
def parseMembers : Nat → List (String × Json) → List Char → Option (Json × List Char)
  | 0, _, _ => none
  | fuel + 1, acc, l =>
    match skipWs l with
    | '"' :: t =>
      match parseStrBody [] t with
      | none => none
      | some (k, rest) =>
        match skipWs rest with
        | ':' :: t2 =>
          match parseVal fuel t2 with
          | none => none
          | some (v, rest2) =>
            match skipWs rest2 with
            | ',' :: t3 => parseMembers fuel ((k, v) :: acc) t3
            | '\x7d' :: t3 => some (.obj ((k, v) :: acc).reverse, t3)
            | _ => none
        | _ => none
    | _ => none

end

/-- `json.loads`: parse one value and require only whitespace after it. -/
def pyJsonLoads (s : String) : Option Json :=
  match parseVal (2 * s.length + 4) s.toList with
  | some (j, rest) => if skipWs rest = [] then some j else none
  | none => none

/-! ## Hit normalization (`retrieve_sources` in `app/rag.py`,
`query_memory` in `app/security_memory/store.py`) -/

/-- Python exceptions relevant to normalization: `json.JSONDecodeError`
and `TypeError` (the two caught classes) and pydantic's validation
error raised by `MemoryChunk(...)`. -/
inductive PyExn where
  | jsonDecodeError
  | typeError
  | validationError
deriving DecidableEq, Repr

/-- `json.loads` on a `str` argument: the only exception it can raise is
`JSONDecodeError`. -/
def pyJsonLoadsE (s : String) : Except PyExn Json :=
  match pyJsonLoads s with
  | some j => .ok j
  | none => .error .jsonDecodeError

/-- The `try: json.loads(raw) except (JSONDecodeError, TypeError): []`
block shared by both normalizers. -/
def loadTagsCaught (raw : String) : Except PyExn Json :=
  match pyJsonLoadsE raw with
  | .ok j => .ok j
  | .error .jsonDecodeError => .ok (.arr [])
  | .error .typeError => .ok (.arr [])
  | .error e => .error e

/-- Python `value or default` for an optional string column (`None` and
`""` are falsy). -/
def pyOrDefault : Option String → String → String
  | none, d => d
  | some s, d => if s = "" then d else s

/-- Python `value or 0` for the `chunk_index` column. -/
def pyOrZero : Option Int → Int
  | none => 0
  | some i => i

/-- A raw Milvus search hit as read by `retrieve_sources`: similarity
score plus the requested output columns (absent columns are `none`). -/
structure RawHit where
  score : ℚ
  text : Option String
  title : Option String
  url : Option String
  source : Option String
  published_date : Option String
  tags : Option String

/-- The normalized source dict built by `retrieve_sources`. -/
structure SourceRecord where
  title : String
  url : String
  source : String
  published_date : String
  tags : Json
  distance : ℚ
  snippet : String

/-- `RAG_MAX_SOURCE_CHARS` default from `app/rag.py` (env default "800"). -/
def RAG_MAX_SOURCE_CHARS : Nat := 800

/-- The per-hit normalization loop body of `retrieve_sources`
(`app/rag.py` lines 133-149). -/
def normalizeHit (hit : RawHit) : Except PyExn SourceRecord := do
  let raw_tags := pyOrDefault hit.tags "[]"
  let tags ← loadTagsCaught raw_tags
  let full_text := pyOrDefault hit.text ""
  return { title := pyOrDefault hit.title "",
           url := pyOrDefault hit.url "",
           source := pyOrDefault hit.source "",
           published_date := pyOrDefault hit.published_date "",
           tags := tags,
           distance := hit.score,
           snippet := pySlice full_text RAG_MAX_SOURCE_CHARS }

/-- A raw hit of the security-memory collection. -/
structure RawChunkHit where
  score : ℚ
  text : Option String
  title : Option String
  source : Option String
  tags : Option String
  chunk_index : Option Int
  doc_path : Option String

/-- `MemoryChunk` from `app/security_memory/schemas.py`. -/
structure MemoryChunk where
  score : ℚ
  title : String
  source : String
  tags : List String
  text : String
  chunk_index : Int
  doc_path : String

/-- Pydantic coercion of a parsed JSON value into `List[str]` (lax mode
coerces neither non-lists nor non-string items). -/
def asStrList : Json → Option (List String)
  | .arr l => l.mapM fun j => match j with | .str s => some s | _ => none
  | _ => none

/-- The per-hit normalization loop body of `query_memory`
(`app/security_memory/store.py` lines 190-209), including the pydantic
validation performed by the `MemoryChunk(...)` constructor. -/
def normalizeChunk (hit : RawChunkHit) : Except PyExn MemoryChunk := do
  let raw_tags := pyOrDefault hit.tags "[]"
  let tagsJson ← loadTagsCaught raw_tags
  match asStrList tagsJson with
  | none => .error .validationError
  | some tags =>
      return { score := hit.score,
               title := pyOrDefault hit.title "",
               source := pyOrDefault hit.source "",
               tags := tags,
               text := pyOrDefault hit.text "",
               chunk_index := pyOrZero hit.chunk_index,
               doc_path := pyOrDefault hit.doc_path "" }

/-- A memory hit whose `tags` column holds malformed JSON. -/
def malformedChunkHit : RawChunkHit :=
  { score := 0, text := some "body", title := some "t", source := some "s",
    tags := some "oops", chunk_index := some 3, doc_path := some "p" }

/-- The chunk `query_memory` builds for `malformedChunkHit`. -/
def malformedChunkResult : MemoryChunk :=
  { score := 0, title := "t", source := "s", tags := [], text := "body",
    chunk_index := 3, doc_path := "p" }

/-! ## Embedding client (`app/embeddings.py` embed_texts) -/

/-- Outcome of the single HTTP call made by `embed_texts`, with the
response body's `embeddings` field already projected out (the service
contract promises a JSON object; `none` models an absent or `null`
field).  The vector payload type is abstract — the code never inspects
vector contents. -/
inductive EmbedResponse (α : Type) where
  | connectError
  | statusError (code : Nat)
  | ok (embeddings : Option (List α))

/-- The failure taxonomy of the spec: the `RuntimeError` raised on an
empty embedding list (EmbeddingUnavailable) versus the `httpx` exceptions
from the transport or from `raise_for_status` (EmbeddingTransportError). -/
inductive EmbedError where
  | embeddingTransportError
  | embeddingUnavailable
deriving DecidableEq, Repr

/-- `embed_texts` from `app/embeddings.py` lines 28-52: POST once, raise
on transport/status failure, read `data.get("embeddings") or []`, raise
`RuntimeError` if the list is empty, else return it verbatim. -/
def embed_texts (α : Type) (texts : List String) (resp : EmbedResponse α) :
    Except EmbedError (List α) :=
  match resp with
  | .connectError => .error .embeddingTransportError
  | .statusError _ => .error .embeddingTransportError
  | .ok embeddings =>
    match embeddings.getD [] with
    | [] => .error .embeddingUnavailable
    | v :: vs => .ok (v :: vs)

/-! ## Chat orchestrator (`app/main.py` _chat_impl and chat) -/

/-- The four timeout budgets of `app/main.py` (seconds, env-overridable
floats; the defaults are `10`, `5`, `120`, `180`). -/
structure StageBudgets where
  retrieveS : ℚ
  promptS : ℚ
  generateS : ℚ
  totalS : ℚ
deriving DecidableEq, Repr

def defaultBudgets : StageBudgets :=
  { retrieveS := 10, promptS := 5, generateS := 120, totalS := 180 }

/-- Wall-clock durations the three awaited stages would take to finish. -/
structure StageDurations where
  dRetrieve : ℚ
  dPrompt : ℚ
  dGenerate : ℚ
deriving DecidableEq, Repr

/-- What the `/chat` handler returns: `200` with answer and sources, or
the `504` raised from its single `except asyncio.TimeoutError` branch. -/
inductive ChatResponse where
  | ok (answer : String) (sources : List PromptSource)
  | httpTimeout (status : Nat) (detail : String)
deriving DecidableEq, Repr

/-- `_chat_impl`: three sequential `asyncio.wait_for` stages; a stage
whose body outlives its budget raises `asyncio.TimeoutError` (modelled as
`Except.error ()`), aborting the remaining stages.  On success the answer
and sources are produced. -/
def chatImplModel (b : StageBudgets) (d : StageDurations)
    (sources : List PromptSource) (answer : String) :
    Except Unit (String × List PromptSource) :=
  if b.retrieveS < d.dRetrieve then .error ()
  else if b.promptS < d.dPrompt then .error ()
  else if b.generateS < d.dGenerate then .error ()
  else .ok (answer, sources)

/-- Wall-clock time until `_chat_impl` returns or raises: a timed-out
stage ends at its own budget and nothing later runs. -/
def chatImplDuration (b : StageBudgets) (d : StageDurations) : ℚ :=
  if b.retrieveS < d.dRetrieve then b.retrieveS
  else if b.promptS < d.dPrompt then d.dRetrieve + b.promptS
  else if b.generateS < d.dGenerate then d.dRetrieve + d.dPrompt + b.generateS
  else d.dRetrieve + d.dPrompt + d.dGenerate

/-- The `/chat` endpoint: `_chat_impl` under the outer total-budget
`asyncio.wait_for`.  The outer timeout firing and a propagated stage
`TimeoutError` reach the same `except asyncio.TimeoutError` branch, which
answers `504 "Chat timed out."` in both cases. -/
def chatEndpointModel (b : StageBudgets) (d : StageDurations)
    (sources : List PromptSource) (answer : String) : ChatResponse :=
  if b.totalS < chatImplDuration b d then .httpTimeout 504 "Chat timed out."
  else
    match chatImplModel b d sources answer with
    | .error () => .httpTimeout 504 "Chat timed out."
    | .ok (a, srcs) => .ok a srcs

/-! ## Vector-store lifecycle (`app/milvus_client.py`) -/

inductive DType where
  | int64
  | floatVector
  | varchar
deriving DecidableEq, Repr

/-- One `FieldSchema` of `_build_schema`. -/
structure FieldDesc where
  fname : String
  dtype : DType
  isPrimary : Bool
  autoId : Bool
  dim : Option Nat
  maxLength : Option Nat
deriving DecidableEq, Repr

/-- A `CollectionSchema`. -/
structure CollectionSchemaDesc where
  fields : List FieldDesc
  description : String
  enableDynamicField : Bool
deriving DecidableEq, Repr

/-- An index as created by `create_index`. -/
structure IndexDesc where
  field : String
  metricType : String
  indexType : String
  m : Nat
  efConstruction : Nat
deriving DecidableEq, Repr

/-- Per-collection server state. -/
structure CollectionInfo where
  schema : CollectionSchemaDesc
  indexes : List IndexDesc
  loaded : Bool
deriving DecidableEq, Repr

/-- Milvus server state: connection flag plus named collections (kept as
a list so that a duplicate creation would be observable). -/
structure MilvusState where
  connected : Bool
  collections : List (String × CollectionInfo)
deriving DecidableEq, Repr

/-- Defaults of `app/milvus_client.py` (env-overridable). -/
def MILVUS_COLLECTION : String := "LabDoc"

def EMBEDDINGS_DIM : Nat := 768

def HNSW_M : Nat := 16

def HNSW_EF_CONSTRUCT : Nat := 200

/-- `_build_schema` from `app/milvus_client.py` lines 89-120. -/
def labSchema : CollectionSchemaDesc :=
  { fields :=
      [ { fname := "id", dtype := .int64, isPrimary := true, autoId := false,
          dim := none, maxLength := none },
        { fname := "embedding", dtype := .floatVector, isPrimary := false, autoId := false,
          dim := some EMBEDDINGS_DIM, maxLength := none },
        { fname := "text", dtype := .varchar, isPrimary := false, autoId := false,
          dim := none, maxLength := some 65535 },
        { fname := "title", dtype := .varchar, isPrimary := false, autoId := false,
          dim := none, maxLength := some 1024 },
        { fname := "url", dtype := .varchar, isPrimary := false, autoId := false,
          dim := none, maxLength := some 2048 },
        { fname := "source", dtype := .varchar, isPrimary := false, autoId := false,
          dim := none, maxLength := some 512 },
        { fname := "published_date", dtype := .varchar, isPrimary := false, autoId := false,
          dim := none, maxLength := some 64 },
        { fname := "tags", dtype := .varchar, isPrimary := false, autoId := false,
          dim := none, maxLength := some 2048 } ],
    description := "RAG lab document collection — Milvus version",
    enableDynamicField := true }

/-- The HNSW cosine index of `_ensure_index`. -/
def hnswIndex : IndexDesc :=
  { field := "embedding", metricType := "COSINE", indexType := "HNSW",
    m := HNSW_M, efConstruction := HNSW_EF_CONSTRUCT }

/-- `connections.connect` (idempotent connection setup). -/
def connectState (s : MilvusState) : MilvusState :=
  { s with connected := true }

/-- Name lookup among the registered collections (first match). -/
def lookupCollection : List (String × CollectionInfo) → String → Option CollectionInfo
  | [], _ => none
  | p :: t, name => if p.1 == name then some p.2 else lookupCollection t name

/-- `Collection(name=...)` handle resolution. -/
def getCollection (s : MilvusState) (name : String) : Option CollectionInfo :=
  lookupCollection s.collections name

/-- `utility.has_collection`. -/
def has_collection (s : MilvusState) (name : String) : Bool :=
  (getCollection s name).isSome

/-- `Collection(name=..., schema=...)`: registers a fresh collection with
no index, not loaded. -/
def createCollection (s : MilvusState) (name : String) (schema : CollectionSchemaDesc) :
    MilvusState :=
  { s with collections :=
      s.collections ++ [(name, { schema := schema, indexes := [], loaded := false })] }

/-- Apply `f` to every registered collection carrying `name`. -/
def modifyEntries (f : CollectionInfo → CollectionInfo) (name : String) :
    List (String × CollectionInfo) → List (String × CollectionInfo)
  | [] => []
  | p :: t =>
      (if p.1 == name then (p.1, f p.2) else p) :: modifyEntries f name t

/-- Update the named collection in place. -/
def modifyCollection (s : MilvusState) (name : String)
    (f : CollectionInfo → CollectionInfo) : MilvusState :=
  { s with collections := modifyEntries f name s.collections }

/-- `collection.create_index(...)`: adds an index. -/
def create_index (s : MilvusState) (name : String) (idx : IndexDesc) : MilvusState :=
  modifyCollection s name fun c => { c with indexes := c.indexes ++ [idx] }

/-- `collection.load()`. -/
def loadCollection (s : MilvusState) (name : String) : MilvusState :=
  modifyCollection s name fun c => { c with loaded := true }

/-- `_ensure_index` from `app/milvus_client.py` lines 123-145: create the
HNSW index only when `collection.has_index()` is false. -/
def _ensure_index (s : MilvusState) (name : String) : MilvusState :=
  match getCollection s name with
  | some c => if c.indexes.isEmpty then create_index s name hnswIndex else s
  | none => s

/-- `ensure_collection` from `app/milvus_client.py` lines 152-172:
connect, create the collection if absent, ensure the index, load; returns
the loaded collection handle (its name here). -/
def ensure_collection (s : MilvusState) : MilvusState × String :=
  (loadCollection
     (_ensure_index
        (if has_collection (connectState s) MILVUS_COLLECTION then connectState s
         else createCollection (connectState s) MILVUS_COLLECTION labSchema)
        MILVUS_COLLECTION)
     MILVUS_COLLECTION,
   MILVUS_COLLECTION)

/-- Number of registered collections carrying a given name. -/
def countName : List (String × CollectionInfo) → String → Nat
  | [], _ => 0
  | p :: t, name => (if p.1 == name then 1 else 0) + countName t name

def countCollection (s : MilvusState) (name : String) : Nat :=
  countName s.collections name

/-- A state in which the collection already exists, indexed, not loaded. -/
def preExistingState : MilvusState :=
  { connected := false,
    collections :=
      [(MILVUS_COLLECTION, { schema := labSchema, indexes := [hnswIndex], loaded := false })] }

/-! ## Helper lemmas -/

theorem strAppend_assoc (a b c : String) : a ++ b ++ c = a ++ (b ++ c) := by
  apply String.ext
  simp [String.data_append]

theorem tailsOf_any_isEmpty : ∀ s : List Char, (tailsOf s).any (fun t => t.isEmpty) = true := by
  intro s
  induction s with
  | nil => rfl
  | cons c t ih => simp [tailsOf, ih]

theorem likeMatch_pct_nil : ∀ s : List Char, likeMatch ['%'] s = true := by
  intro s
  have h := tailsOf_any_isEmpty s
  simpa [likeMatch] using h

theorem likeMatch_lit :
    ∀ (X : List Char), '%' ∉ X → ∀ s, likeMatch (X ++ ['%']) s = X.isPrefixOf s := by
  intro X
  induction X with
  | nil =>
      intro _ s
      simp [likeMatch_pct_nil s, List.isPrefixOf]
  | cons x X ih =>
      intro hX s
      have hx : ¬ x = '%' := fun h => hX (h ▸ List.mem_cons_self x X)
      have hX' : '%' ∉ X := fun h => hX (List.mem_cons_of_mem x h)
      cases s with
      | nil => simp [likeMatch, hx, List.isPrefixOf]
      | cons c s => simp [likeMatch, hx, List.isPrefixOf, ih hX' s]

theorem hasSub_eq_tails :
    ∀ (X s : List Char), hasSub X s = (tailsOf s).any (fun t => X.isPrefixOf t) := by
  intro X s
  induction s with
  | nil => simp [hasSub, tailsOf]
  | cons c t ih => simp [hasSub, tailsOf, ih]

theorem likeMatch_contains :
    ∀ (X : List Char), '%' ∉ X → ∀ s, likeMatch ('%' :: (X ++ ['%'])) s = hasSub X s := by
  intro X hX s
  have h1 : ∀ t : List Char, likeMatch (X ++ ['%']) t = X.isPrefixOf t := likeMatch_lit X hX
  simp [likeMatch, h1, hasSub_eq_tails]

theorem loadTagsCaught_ok (raw : String) :
    loadTagsCaught raw = Except.ok ((pyJsonLoads raw).getD (Json.arr [])) := by
  unfold loadTagsCaught pyJsonLoadsE
  cases pyJsonLoads raw <;> rfl

theorem lookupCollection_modifyEntries (f : CollectionInfo → CollectionInfo) (name : String) :
    ∀ (l : List (String × CollectionInfo)),
      lookupCollection (modifyEntries f name l) name = (lookupCollection l name).map f := by
  intro l
  induction l with
  | nil => rfl
  | cons hd tl ih =>
    by_cases h : hd.1 == name
    · simp only [modifyEntries, lookupCollection, if_pos h]
      rfl
    · simp only [modifyEntries, lookupCollection, if_neg h]
      exact ih

theorem countName_modifyEntries (f : CollectionInfo → CollectionInfo) (name n2 : String) :
    ∀ (l : List (String × CollectionInfo)),
      countName (modifyEntries f name l) n2 = countName l n2 := by
  intro l
  induction l with
  | nil => rfl
  | cons hd tl ih =>
    by_cases h : hd.1 == name
    · simp only [modifyEntries, countName, if_pos h, ih]
    · simp only [modifyEntries, countName, if_neg h, ih]

theorem modifyEntries_idem (f : CollectionInfo → CollectionInfo) (name : String)
    (hf : ∀ c, f (f c) = f c) :
    ∀ (l : List (String × CollectionInfo)),
      modifyEntries f name (modifyEntries f name l) = modifyEntries f name l := by
  intro l
  induction l with
  | nil => rfl
  | cons hd tl ih =>
    by_cases h : hd.1 == name
    · simp only [modifyEntries, if_pos h, ih, hf]
    · simp only [modifyEntries, if_neg h, ih]

theorem connectState_of_connected (s : MilvusState) (h : s.connected = true) :
    connectState s = s := by
  cases s with
  | mk conn cols =>
    simp only [connectState]
    simp at h
    rw [h]

/-! ## Claim C1 -/

/-- C1 counterexample: the claim asserts plain-substring imprecision — a
requested tag `"go"` matching a stored tag `"mongo"`, and `{"docker"}`
possibly matching a row storing `"mongodb"`.  The built pattern wraps the
tag in JSON quotes, so although `"go"` is a plain substring of the stored
tags JSON of `["mongo"]`, the filter admits neither row. -/
theorem tag_filter_counterexample :
    containsStr (pyJsonDumpsStrList ["mongo"]) "go" = true
      ∧ admitsRow (some ["go"]) (pyJsonDumpsStrList ["mongo"]) = false
      ∧ admitsRow (some ["docker"]) (pyJsonDumpsStrList ["mongodb"]) = false := by
  refine ⟨by decide, by decide, by decide⟩

/-- C1 (amended): for every query with a non-empty tag set (tags free of
the `%` wildcard), the filter admits exactly the rows whose `tags` column
textually contains some requested tag wrapped in double quotes — still a
substring approximation, but one that does not let `"go"` match a stored
`"mongo"`. -/
theorem tag_filter_quoted_containment :
    ∀ (ts : List String) (col : String), ts ≠ [] →
      (∀ t ∈ ts, '%' ∉ t.toList) →
      (admitsRow (some ts) col = true ↔
        ∃ t ∈ ts, containsStr col ("\"" ++ t ++ "\"") = true) := by
  intro ts col hne hpc
  obtain ⟨t0, tl, rfl⟩ := List.exists_cons_of_ne_nil hne
  have key : ∀ t ∈ t0 :: tl,
      likeMatch (likePattern t) col.toList = containsStr col ("\"" ++ t ++ "\"") := by
    intro t ht
    have h1 : '%' ∉ quoteChars t := by
      intro hmem
      rcases List.mem_cons.mp hmem with h | h
      · exact absurd h (by decide)
      · rcases List.mem_append.mp h with h | h
        · exact hpc t ht h
        · simp at h
    have h2 : ("\"" ++ t ++ "\"").toList = quoteChars t := by
      show ("\"" ++ t ++ "\"").data = quoteChars t
      simp [String.data_append, quoteChars, String.toList]
    rw [containsStr, h2, likePattern, likeMatch_contains (quoteChars t) h1]
  show ((t0 :: tl).any fun t => likeMatch (likePattern t) col.toList) = true ↔ _
  rw [List.any_eq_true]
  constructor
  · rintro ⟨t, ht, hm⟩
    exact ⟨t, ht, (key t ht) ▸ hm⟩
  · rintro ⟨t, ht, hm⟩
    exact ⟨t, ht, (key t ht).symm ▸ hm⟩

/-- Witness: on a stored row with tags `["mongodb", "docker"]`, querying
with the tag set `{"docker"}` admits the row. -/
theorem tag_filter_quoted_containment_witness :
    admitsRow (some ["docker"]) (pyJsonDumpsStrList ["mongodb", "docker"]) = true := by
  have h := tag_filter_quoted_containment ["docker"] (pyJsonDumpsStrList ["mongodb", "docker"])
    (by simp) (by decide)
  exact h.mpr ⟨"docker", by decide, by decide⟩

/-! ## Claim C2 -/

/-- C2 counterexample: the claim says `classify("docker run -it ubuntu")`
accumulates a score of at least 3 and yields `advanced`; in fact only the
CLI signal fires (+2), the structural signal does not (length 21, no
question marks, no newlines), and the result is not `advanced`. -/
theorem classify_docker_counterexample :
    classify_detail_level "docker run -it ubuntu" ≠ DetailLevel.advanced := by
  decide

/-- C2 (amended): `classify("docker run -it ubuntu")` scores exactly 2
(the CLI signal alone) and, because a CLI signal fired, yields
`standard` rather than `basic`. -/
theorem classify_docker_standard :
    advancedScore (pyStrip "docker run -it ubuntu") = 2
      ∧ classify_detail_level "docker run -it ubuntu" = DetailLevel.standard := by
  constructor
  · decide
  · decide

/-! ## Claim C3 -/

/-- C3 counterexample: for a chat request that omits `detail_level`, the
level used in the prompt is the pydantic default `standard`, not the
classifier's output — here `classify("hi") = basic` yet the prompt is
built at `standard`. -/
theorem chat_detail_default_counterexample :
    chatUsedDetailLevel "hi" FieldInput.omitted ≠ classify_detail_level "hi" := by
  decide

/-- C3 (amended): the classifier decides the level only when the caller
explicitly sends `detail_level: null`; an omitted field is defaulted to
`standard` by the `ChatIn` schema and bypasses classification, and an
explicitly supplied level is used verbatim. -/
theorem chat_detail_level_resolution :
    ∀ (msg : String),
      chatUsedDetailLevel msg FieldInput.omitted = DetailLevel.standard
        ∧ chatUsedDetailLevel msg (FieldInput.provided none) = classify_detail_level msg
        ∧ ∀ l : DetailLevel, chatUsedDetailLevel msg (FieldInput.provided (some l)) = l := by
  intro msg
  refine ⟨rfl, rfl, fun l => rfl⟩

/-! ## Claim C4 -/

/-- C4 counterexample: a run whose generation stage exceeds its 120 s
budget (durations 1, 1, 130 under the default budgets) is answered with
exactly the same condition — `504` with detail `"Chat timed out."` — as a
run that breaches only the total budget (budgets 10, 5, 120 with total 30
and durations 1, 1, 40, every stage under its own budget).  There is no
stage-specific `StageTimeout{generate}` condition distinct from the
overall-timeout condition. -/
theorem chat_stage_timeout_counterexample :
    chatEndpointModel defaultBudgets
        { dRetrieve := 1, dPrompt := 1, dGenerate := 130 } [] "unused"
      = chatEndpointModel
          { retrieveS := 10, promptS := 5, generateS := 120, totalS := 30 }
          { dRetrieve := 1, dPrompt := 1, dGenerate := 40 } [] "unused"
      ∧ chatEndpointModel defaultBudgets
          { dRetrieve := 1, dPrompt := 1, dGenerate := 130 } [] "unused"
        = ChatResponse.httpTimeout 504 "Chat timed out." := by
  constructor
  · norm_num [chatEndpointModel, chatImplModel, chatImplDuration, defaultBudgets]
  · norm_num [chatEndpointModel, chatImplModel, chatImplDuration, defaultBudgets]

/-- C4 (amended): whenever the generation stage exceeds its budget (the
earlier stages staying within theirs), the orchestrator aborts with the
generic timeout condition `504 "Chat timed out."` — the same condition
used for a total-budget breach, not a distinct stage-specific one — and
never returns a partial answer. -/
theorem chat_generate_timeout_aborts :
    ∀ (b : StageBudgets) (d : StageDurations) (sources : List PromptSource) (answer : String),
      d.dRetrieve ≤ b.retrieveS → d.dPrompt ≤ b.promptS → b.generateS < d.dGenerate →
      chatEndpointModel b d sources answer = ChatResponse.httpTimeout 504 "Chat timed out." := by
  intro b d sources answer h1 h2 h3
  have n1 : ¬ b.retrieveS < d.dRetrieve := not_lt.mpr h1
  have n2 : ¬ b.promptS < d.dPrompt := not_lt.mpr h2
  unfold chatEndpointModel chatImplModel
  split
  · rfl
  · simp [n1, n2, h3]

/-- Witness for the amended C4 at the default budgets with durations
1 s, 1 s and 130 s. -/
theorem chat_generate_timeout_aborts_witness :
    chatEndpointModel defaultBudgets
        { dRetrieve := 1, dPrompt := 1, dGenerate := 130 } [] "ans"
      = ChatResponse.httpTimeout 504 "Chat timed out." := by
  exact chat_generate_timeout_aborts defaultBudgets
    { dRetrieve := 1, dPrompt := 1, dGenerate := 130 } [] "ans"
    (by norm_num [defaultBudgets]) (by norm_num [defaultBudgets]) (by norm_num [defaultBudgets])

/-! ## Claim C5 -/

/-- C5 counterexample: on `"a? b?"` (length 5, two question marks, no
content signal) the claimed rule returns `standard` because the
structural signal fired, but the code returns `basic`: the structural
signal is not part of the `basic` guard. -/
theorem classify_structural_counterexample :
    classify_detail_level "a? b?" = DetailLevel.basic
      ∧ specClassify "a? b?" = DetailLevel.standard := by
  constructor
  · decide
  · decide

/-- C5 (amended): for every query the classifier returns `advanced`
exactly as the order-independent score reaches 3, else `basic` exactly
when the stripped text is empty or is at most 60 characters with none of
the five content signals fired (the structural signal does not block
`basic`), else `standard`. -/
theorem classify_characterization :
    ∀ (msg : String), classify_detail_level msg = amendedSpecClassify msg := by
  intro msg
  unfold classify_detail_level amendedSpecClassify
  by_cases hm : pyStrip msg = ""
  · rw [hm]
    decide
  · simp only [hm, if_false, false_or]

/-! ## Claim C6 -/

/-- C6: `build_prompt` is a pure function of `(question, sources, tier)`
(it reads no ambient state in this embedding, so identical arguments give
the same string definitionally), and with the tier supplied explicitly the
output decomposes as a tier-independent header, the tier's style block and
detail line, and a tier-independent suffix built from the sources and the
verbatim question alone: changing only the tier changes only `styleBlock`. -/
theorem build_prompt_tier_isolation :
    ∀ (q : String) (s : List PromptSource) (t : DetailLevel),
      build_prompt q s (some t) = promptHeader ++ styleBlock t ++ promptSuffix q s := by
  intro q s t
  unfold build_prompt promptHeader styleBlock promptSuffix
  simp only [Option.getD_some, strAppend_assoc]

/-! ## Claim C7 -/

/-- C7: normalization of a raw hit into a `SourceRecord` never raises —
the only fallible step, `json.loads` on the tags column, is wrapped so
that malformed JSON (and a missing/`None`/empty column, which is replaced
by `"[]"` before parsing) degrades to an empty tag list — and the snippet
is the hit's text truncated to at most `RAG_MAX_SOURCE_CHARS = 800`
characters.  The parallel memory-chunk normalizer degrades malformed tags
JSON to an empty list the same way. -/
theorem retrieve_normalization_total :
    ∀ (hit : RawHit),
      (∃ r, normalizeHit hit = Except.ok r
        ∧ r.snippet = pySlice (pyOrDefault hit.text "") RAG_MAX_SOURCE_CHARS
        ∧ r.snippet.length ≤ RAG_MAX_SOURCE_CHARS
        ∧ r.tags = (pyJsonLoads (pyOrDefault hit.tags "[]")).getD (Json.arr []))
      ∧ normalizeChunk malformedChunkHit = Except.ok malformedChunkResult := by
  intro hit
  constructor
  · simp only [normalizeHit, loadTagsCaught_ok]
    refine ⟨_, rfl, rfl, ?_, rfl⟩
    show (pySlice (pyOrDefault hit.text "") RAG_MAX_SOURCE_CHARS).length ≤ RAG_MAX_SOURCE_CHARS
    simp only [pySlice, String.length_mk, List.length_take]
    exact Nat.min_le_left _ _
  · rfl

/-! ## Claim C8 -/

/-- C8: `embed_texts` fails with `embeddingUnavailable` exactly when the
HTTP call succeeded but yielded zero vectors (a missing/`null` field or
the empty list); any transport or HTTP-status failure yields the distinct
`embeddingTransportError`; and on success the service's vector list is
returned verbatim (hence positionally aligned with whatever the service
aligned it to). -/
theorem embed_texts_failure_taxonomy :
    ∀ (α : Type) (texts : List String),
      (∀ resp : EmbedResponse α,
        (embed_texts α texts resp = .error .embeddingUnavailable ↔
          resp = .ok none ∨ resp = .ok (some [])))
      ∧ (embed_texts α texts .connectError = .error .embeddingTransportError)
      ∧ (∀ code, embed_texts α texts (.statusError code) = .error .embeddingTransportError)
      ∧ (∀ (v : α) (vs : List α), embed_texts α texts (.ok (some (v :: vs))) = .ok (v :: vs))
      ∧ EmbedError.embeddingUnavailable ≠ EmbedError.embeddingTransportError := by
  intro α texts
  refine ⟨?_, rfl, fun _ => rfl, fun _ _ => rfl, by decide⟩
  intro resp
  match resp with
  | .connectError => simp [embed_texts]
  | .statusError c => simp [embed_texts]
  | .ok none => simp [embed_texts]
  | .ok (some []) => simp [embed_texts]
  | .ok (some (v :: vs)) => simp [embed_texts]

/-! ## Claim C9 -/

/-- C9: when the collection already exists with its index, a call to
`ensure_collection` creates no second collection (the name's multiplicity
is unchanged) and no second index, leaves schema and index configuration
as they were, only marks the collection loaded, and a repeated call is a
no-op returning the same loaded collection handle. -/
theorem ensure_collection_idempotent :
    ∀ (s : MilvusState) (info : CollectionInfo),
      getCollection s MILVUS_COLLECTION = some info →
      info.indexes ≠ [] →
      countCollection (ensure_collection s).1 MILVUS_COLLECTION
          = countCollection s MILVUS_COLLECTION
        ∧ getCollection (ensure_collection s).1 MILVUS_COLLECTION
          = some { info with loaded := true }
        ∧ ensure_collection (ensure_collection s).1
          = ((ensure_collection s).1, MILVUS_COLLECTION) := by
  intro s info h hidx
  have hconn : getCollection (connectState s) MILVUS_COLLECTION = some info := h
  have hhas : has_collection (connectState s) MILVUS_COLLECTION = true := by
    simp [has_collection, hconn]
  have hidxe : info.indexes.isEmpty = false := by
    cases hI : info.indexes with
    | nil => exact absurd hI hidx
    | cons a l => rfl
  have hstep : ensure_collection s
      = (loadCollection (connectState s) MILVUS_COLLECTION, MILVUS_COLLECTION) := by
    simp [ensure_collection, hhas, _ensure_index, hconn, hidxe]
  have hget1 : getCollection (ensure_collection s).1 MILVUS_COLLECTION
      = some { info with loaded := true } := by
    rw [hstep]
    show lookupCollection (modifyEntries _ _ (connectState s).collections) _ = _
    rw [lookupCollection_modifyEntries]
    show (getCollection (connectState s) MILVUS_COLLECTION).map _ = _
    rw [hconn]
    rfl
  refine ⟨?_, hget1, ?_⟩
  · rw [hstep]
    exact countName_modifyEntries _ MILVUS_COLLECTION MILVUS_COLLECTION _
  · have hc2 : (ensure_collection s).1.connected = true := by
      rw [hstep]; rfl
    have hconn2 : connectState (ensure_collection s).1 = (ensure_collection s).1 :=
      connectState_of_connected _ hc2
    have hget2 : getCollection (connectState (ensure_collection s).1) MILVUS_COLLECTION
        = some { info with loaded := true } := by rw [hconn2]; exact hget1
    have hhas2 : has_collection (connectState (ensure_collection s).1) MILVUS_COLLECTION
        = true := by
      simp [has_collection, hget2]
    show ensure_collection (ensure_collection s).1 = _
    rw [ensure_collection, if_pos hhas2, _ensure_index, hget2]
    simp only [hidxe, Bool.false_eq_true, if_false, hconn2]
    rw [hstep]
    simp only [loadCollection, modifyCollection, Prod.mk.injEq, and_true]
    simp only [connectState]
    exact congrArg (MilvusState.mk true)
      (modifyEntries_idem (fun c => { c with loaded := true }) MILVUS_COLLECTION
        (fun c => rfl) s.collections)

/-- Witness for C9 at `preExistingState`. -/
theorem ensure_collection_idempotent_witness :
    countCollection (ensure_collection preExistingState).1 MILVUS_COLLECTION
        = countCollection preExistingState MILVUS_COLLECTION
      ∧ getCollection (ensure_collection preExistingState).1 MILVUS_COLLECTION
        = some { schema := labSchema, indexes := [hnswIndex], loaded := true }
      ∧ ensure_collection (ensure_collection preExistingState).1
        = ((ensure_collection preExistingState).1, MILVUS_COLLECTION) :=
  ensure_collection_idempotent preExistingState
    { schema := labSchema, indexes := [hnswIndex], loaded := false } rfl (by decide)

/-! ## Claim C10 -/

/-- C10: omitting `k` or passing `k = 0` requests the default of 4 hits
(search dispatched with `limit 4` and `ef = max(16, 64) = 64`), and no
argument makes the dispatched limit zero. -/
theorem retrieve_k_defaulting :
    effectiveK none = 4 ∧ effectiveK (some 0) = 4
      ∧ searchEf (effectiveK none) = 64 ∧ searchEf (effectiveK (some 0)) = 64
      ∧ ∀ k : Option Nat, 0 < effectiveK k := by
  refine ⟨rfl, rfl, rfl, rfl, ?_⟩
  intro k
  match k with
  | none => decide
  | some 0 => decide
  | some (n + 1) => simp [effectiveK]

end RagSpec
